import Mathlib

/-!
Shallow embedding of `pybulletgym/envs/robots/robot_locomotors.py`.

Numbers are modelled as rationals.  Action entries, which in the source are
numpy floats that may be NaN or infinite, are modelled by `PyFloat`.
Trigonometric functions and the Euclidean norm used by `calc_state` are
abstracted into an `Ops` record: the properties proved below (vector length,
clipping, flag repositioning, crawl bookkeeping) hold for every choice of
these functions, exactly as they hold for the numpy ones.
External physics-engine reads (joint states, body pose, speed, contacts) are
inputs to the embedded functions; writes (motor torques, cube resets) are
returned values.
-/

/-- A Python/numpy scalar: a finite value (a rational), NaN, or an infinity.
`np.isfinite` is false exactly on the last two. -/
inductive PyFloat where
  | finite (val : ℚ)
  | nan
  | inf (positive : Bool)
deriving DecidableEq

def PyFloat.isFinite : PyFloat → Bool
  | .finite _ => true
  | _ => false

/-- The finite value carried by a `PyFloat` (0 for the non-finite ones; only
used on entries that passed the finiteness assertion). -/
def PyFloat.val : PyFloat → ℚ
  | .finite q => q
  | _ => 0

/-- `np.clip(x, -1, +1)` on a finite value. -/
def clip1 (q : ℚ) : ℚ := min (max q (-1)) 1

/-- `np.clip(x, -5, +5)` on a finite value. -/
def clip5 (q : ℚ) : ℚ := min (max q (-5)) 5

/-- `np.mean` of a list of rationals. -/
def listMean (l : List ℚ) : ℚ := l.sum / (l.length : ℚ)

/-- Abstract versions of the transcendental operations used by
`WalkerBase.calc_state`: `np.sin`, `np.cos`, `np.arctan2 y x`, and
`np.linalg.norm [a, b]`. -/
structure Ops where
  sin : ℚ → ℚ
  cos : ℚ → ℚ
  atan2 : ℚ → ℚ → ℚ
  norm2 : ℚ → ℚ → ℚ

/-- Physics-engine readings consumed by one `WalkerBase.calc_state` call:
per-joint `current_relative_position()` pairs (normalized position, speed),
the `xyz` of every body part, the torso pose (z and roll/pitch/yaw), the
world-frame body speed, and the foot-contact array. -/
structure SensorInput where
  joints : List (ℚ × ℚ)
  parts_xyz : List (ℚ × ℚ × ℚ)
  body_z : ℚ
  roll : ℚ
  pitch : ℚ
  yaw : ℚ
  speed_x : ℚ
  speed_y : ℚ
  speed_z : ℚ
  feet_contact : List ℚ
deriving DecidableEq

/-- Flattening of the per-joint (position, speed) pairs: the `j` array of
`calc_state` (even entries positions, odd entries speeds). -/
def interleave : List (ℚ × ℚ) → List ℚ
  | [] => []
  | (a, b) :: rest => a :: b :: interleave rest

/-- The fields `calc_state` writes on `self`, plus the returned observation. -/
structure CalcOut where
  obs : List ℚ
  initial_z : ℚ
  body_x : ℚ
  body_y : ℚ
  body_z : ℚ
  walk_target_theta : ℚ
  walk_target_dist : ℚ
  joint_speeds : List ℚ
  joints_at_limit : ℕ
deriving DecidableEq

namespace WalkerBase

/-- The torque loop of `WalkerBase.apply_action`: joint `n` is commanded
`power * power_coef[n] * clip(a[n], -1, 1)`; indexing `a` past its end is a
Python IndexError.  The coefficient list enumerates `ordered_joints`. -/
def torques (power : ℚ) : List ℚ → List PyFloat → Except String (List ℚ)
  | [], _ => .ok []
  | _ :: _, [] => .error "IndexError"
  | c :: cs, x :: xs =>
    match x with
    | .finite q => (torques power cs xs).map (fun ts => power * c * clip1 q :: ts)
    | _ => .error "non-finite entry"

/-- `WalkerBase.apply_action`: asserts `np.isfinite(a).all()`, then commands
the per-joint torques. -/
def apply_action (power : ℚ) (power_coefs : List ℚ) (a : List PyFloat) :
    Except String (List ℚ) :=
  if a.all PyFloat.isFinite then torques power power_coefs a
  else .error "AssertionError"

/-- `WalkerBase.calc_state`, with targets, the lazily latched `initial_z`
(`none` models Python `None`) and sensor readings made explicit. -/
def calc_state (ops : Ops) (walk_target_x walk_target_y : ℚ)
    (initial_z0 : Option ℚ) (inp : SensorInput) : CalcOut :=
  let j := interleave inp.joints
  let joint_speeds := inp.joints.map Prod.snd
  let joints_at_limit := (inp.joints.filter (fun q => 99/100 < |q.1|)).length
  let body_x := listMean (inp.parts_xyz.map (fun t => t.1))
  let body_y := listMean (inp.parts_xyz.map (fun t => t.2.1))
  let z := inp.body_z
  let iz := initial_z0.getD z
  let walk_target_theta := ops.atan2 (walk_target_y - body_y) (walk_target_x - body_x)
  let walk_target_dist := ops.norm2 (walk_target_y - body_y) (walk_target_x - body_x)
  let angle_to_target := walk_target_theta - inp.yaw
  let vx := ops.cos (-inp.yaw) * inp.speed_x - ops.sin (-inp.yaw) * inp.speed_y
  let vy := ops.sin (-inp.yaw) * inp.speed_x + ops.cos (-inp.yaw) * inp.speed_y
  let vz := inp.speed_z
  let more := [z - iz, ops.sin angle_to_target, ops.cos angle_to_target,
               3/10 * vx, 3/10 * vy, 3/10 * vz, inp.roll, inp.pitch]
  { obs := (more ++ j ++ inp.feet_contact).map clip5
    initial_z := iz
    body_x := body_x
    body_y := body_y
    body_z := z
    walk_target_theta := walk_target_theta
    walk_target_dist := walk_target_dist
    joint_speeds := joint_speeds
    joints_at_limit := joints_at_limit }

/-- `WalkerBase.calc_potential`: `-walk_target_dist / scene.dt`. -/
def calc_potential (walk_target_dist dt : ℚ) : ℚ := -walk_target_dist / dt

end WalkerBase

/-- The robot variants whose dimensioning the spec states. -/
inductive Variant where
  | hopper
  | walker2d
  | halfCheetah
  | ant
  | humanoid
  | atlas
deriving DecidableEq

/-- `action_dim` passed to the model-loading constructor (equals the number of
ordered joints). -/
def action_dim : Variant → ℕ
  | .hopper => 3
  | .walker2d => 6
  | .halfCheetah => 6
  | .ant => 8
  | .humanoid => 17
  | .atlas => 30

/-- `obs_dim` passed to the model-loading constructor. -/
def obs_dim : Variant → ℕ
  | .hopper => 15
  | .walker2d => 22
  | .halfCheetah => 26
  | .ant => 28
  | .humanoid => 44
  | .atlas => 70

/-- Length of each variant's `foot_list`. -/
def foot_count : Variant → ℕ
  | .hopper => 1
  | .walker2d => 2
  | .halfCheetah => 6
  | .ant => 4
  | .humanoid => 2
  | .atlas => 2

/-- The value `initial_z` holds after each variant's `robot_specific_reset`
chain finishes.  `WalkerBase.robot_specific_reset` sets it to `None`;
`Humanoid.robot_specific_reset` then overwrites it with 0.8, and Atlas's
`set_initial_orientation` (called from its reset) overwrites it with 1.5. -/
def reset_initial_z : Variant → Option ℚ
  | .hopper => none
  | .walker2d => none
  | .halfCheetah => none
  | .ant => none
  | .humanoid => some (4/5)
  | .atlas => some (3/2)

namespace HalfCheetah

/-- `HalfCheetah.alive_bonus`: +1 when `|pitch| < 1.0` and the tracked
non-foot contacts (`feet_contact` indices 1, 2, 4, 5: fshin, fthigh, bshin,
bthigh) are all zero (falsy), else -1.  The argument `z` is unused. -/
def alive_bonus (z pitch : ℚ) (feet_contact : List ℚ) : ℚ :=
  if |pitch| < 1 ∧ feet_contact.getD 1 0 = 0 ∧ feet_contact.getD 2 0 = 0 ∧
      feet_contact.getD 4 0 = 0 ∧ feet_contact.getD 5 0 = 0 then 1 else -1

end HalfCheetah

namespace Atlas

/-- `Atlas.alive_bonus`: the local `z` is REBOUND to `self.head.pose().xyz()`
before the test, so the height that gates the bonus is the head's z, not the
argument.  `knees` holds `current_relative_position()` of `l_leg_kny` and
`r_leg_kny`; `knees_at_limit` counts positions with `|pos| > 0.99`. -/
def alive_bonus (z pitch head_z : ℚ) (knees : List (ℚ × ℚ)) : ℚ :=
  let knees_at_limit := (knees.filter (fun q => 99/100 < |q.1|)).length
  if 13/10 < head_z then 4 - knees_at_limit else -1

end Atlas

namespace HumanoidFlagrun

/-- Scene constants consumed by `flag_reposition` and `calc_potential`. -/
structure Scene where
  dt : ℚ
  stadium_halflen : ℚ
  stadium_halfwidth : ℚ
deriving DecidableEq

/-- The target-related fields of `flag_reposition`: the sampled target scaled
by `more_compact = 0.5`, and `flag_timeout = 200`.  `rx`, `ry` are the raw
uniform samples in `[-stadium_halflen, +stadium_halflen]` and
`[-stadium_halfwidth, +stadium_halfwidth]`. -/
structure FlagState where
  walk_target_x : ℚ
  walk_target_y : ℚ
  flag_timeout : ℤ
deriving DecidableEq

def flag_reposition (rx ry : ℚ) : FlagState :=
  { walk_target_x := rx * (1/2)
    walk_target_y := ry * (1/2)
    flag_timeout := 200 }

/-- The robot fields read and written by `HumanoidFlagrun.calc_state`. -/
structure FlagrunState where
  walk_target_x : ℚ
  walk_target_y : ℚ
  flag_timeout : ℤ
  walk_target_dist : ℚ
  potential : ℚ
  initial_z : Option ℚ
deriving DecidableEq

/-- `HumanoidFlagrun.calc_state`: decrement the timeout, compute the state
against the current target; if the freshly computed `walk_target_dist` is
below 1 or the timeout has run out, reposition the flag, recompute the state
against the new target, and recompute `self.potential`.  Returns the
observation and the updated fields. -/
def calc_state (ops : Ops) (scene : Scene) (rx ry : ℚ) (inp : SensorInput)
    (s : FlagrunState) : List ℚ × FlagrunState :=
  let timeout1 := s.flag_timeout - 1
  let out1 := WalkerBase.calc_state ops s.walk_target_x s.walk_target_y s.initial_z inp
  if out1.walk_target_dist < 1 ∨ timeout1 ≤ 0 then
    let f := flag_reposition rx ry
    let out2 := WalkerBase.calc_state ops f.walk_target_x f.walk_target_y
      (some out1.initial_z) inp
    (out2.obs,
      { walk_target_x := f.walk_target_x
        walk_target_y := f.walk_target_y
        flag_timeout := f.flag_timeout
        walk_target_dist := out2.walk_target_dist
        potential := WalkerBase.calc_potential out2.walk_target_dist scene.dt
        initial_z := some out2.initial_z })
  else
    (out1.obs,
      { s with
        flag_timeout := timeout1
        walk_target_dist := out1.walk_target_dist
        initial_z := some out1.initial_z })

end HumanoidFlagrun

namespace HumanoidFlagrunHarder

/-- `potential_leak`: clip the body height to [0, 0.8] and map it linearly to
[1.0, 2.0]. -/
def potential_leak (z : ℚ) : ℚ := min (max z 0) (4/5) / (4/5) + 1

/-- The crawl-suppression fields of `HumanoidFlagrunHarder`. -/
structure CrawlState where
  crawl_start_potential : Option ℚ
  crawl_ignored_potential : ℚ
deriving DecidableEq

/-- The crawl-suppression block of `calc_potential`: given the body height
and the freshly computed flag-running progress, returns the (possibly frozen)
progress used in the final potential and the updated crawl fields. -/
def crawl_update (z flag_running_progress : ℚ) (s : CrawlState) : ℚ × CrawlState :=
  if z < 4/5 then
    let start := s.crawl_start_potential.getD
      (flag_running_progress - s.crawl_ignored_potential)
    (start, { crawl_start_potential := some start
              crawl_ignored_potential := flag_running_progress - start })
  else
    (flag_running_progress - s.crawl_ignored_potential,
     { crawl_start_potential := none
       crawl_ignored_potential := s.crawl_ignored_potential })

/-- `HumanoidFlagrunHarder.calc_potential`: the flag-running progress is
`Humanoid.calc_potential`, i.e. `-walk_target_dist / dt`; the crawl block may
freeze it; the result adds `potential_leak() * 100`. -/
def calc_potential (z walk_target_dist dt : ℚ) (s : CrawlState) : ℚ × CrawlState :=
  let r := crawl_update z (WalkerBase.calc_potential walk_target_dist dt) s
  (r.1 + potential_leak z * 100, r.2)

/-- Iterate `crawl_update` over a list of (height, progress) readings,
collecting the per-step progress components. -/
def crawl_run : CrawlState → List (ℚ × ℚ) → List ℚ × CrawlState
  | s, [] => ([], s)
  | s, (z, p) :: rest =>
    let r := crawl_update z p s
    let tail := crawl_run r.2 rest
    (r.1 :: tail.1, tail.2)

/-- The counter update and returned bonus of
`HumanoidFlagrunHarder.alive_bonus` (the cube-attack block touches neither
the counter nor the return value).  Returns (bonus, new counter). -/
def alive_bonus (z : ℚ) (on_ground_frame_counter : ℤ) : ℚ × ℤ :=
  let c := if z < 4/5 then on_ground_frame_counter + 1
    else if on_ground_frame_counter > 0 then on_ground_frame_counter - 1
    else on_ground_frame_counter
  (if c < 170 then potential_leak z else -1, c)

end HumanoidFlagrunHarder

/-- The fields `WalkerBase.__init__` writes. -/
structure RobotInitFields where
  power : ℚ
  camera_x : ℚ
  start_pos_x : ℚ
  start_pos_y : ℚ
  start_pos_z : ℚ
  walk_target_x : ℚ
  walk_target_y : ℚ
deriving DecidableEq

def walker_base_init (power : ℚ) : RobotInitFields :=
  { power := power
    camera_x := 0
    start_pos_x := 0
    start_pos_y := 0
    start_pos_z := 0
    walk_target_x := 1000
    walk_target_y := 0 }

/-- `Humanoid.__init__`: `WalkerBase.__init__(self, power=0.41)` (the
model-loading base constructor is external). -/
def humanoid_init : RobotInitFields := walker_base_init (41/100)

/-- `HumanoidFlagrun.__init__(self)`: delegates to `Humanoid.__init__(self)`. -/
def humanoid_flagrun_init (self : RobotInitFields) : RobotInitFields :=
  humanoid_init

/-- Python call semantics for a function of one required positional argument:
calling it with an argument list of any other length is a TypeError. -/
def py_call_1 {α β : Type} (f : α → β) (args : List α) : Except String β :=
  match args with
  | [x] => .ok (f x)
  | _ => .error "TypeError: missing self"

/-- `HumanoidFlagrunHarder.__init__(self)`: its body is
`HumanoidFlagrun.__init__()` — the parent initializer invoked with an EMPTY
argument list. -/
def humanoid_flagrun_harder_init (self : RobotInitFields) :
    Except String RobotInitFields :=
  py_call_1 humanoid_flagrun_init []

/-- A trivial instantiation of the abstract transcendental operations, used
for concrete evaluations of `calc_state`. -/
def zeroOps : Ops :=
  { sin := fun _ => 0
    cos := fun _ => 0
    atan2 := fun _ _ => 0
    norm2 := fun _ _ => 0 }

/-- A concrete sensor reading with no joints and no feet, body height 1.4. -/
def sampleInput : SensorInput :=
  { joints := []
    parts_xyz := []
    body_z := 7/5
    roll := 0
    pitch := 0
    yaw := 0
    speed_x := 0
    speed_y := 0
    speed_z := 0
    feet_contact := [] }

/-- A concrete sensor reading shaped like a Hopper: 3 joints, 1 foot. -/
def hopperInput : SensorInput :=
  { joints := [(0, 0), (0, 0), (0, 0)]
    parts_xyz := []
    body_z := 1
    roll := 0
    pitch := 0
    yaw := 0
    speed_x := 0
    speed_y := 0
    speed_z := 0
    feet_contact := [0] }

theorem WalkerBase.torques_of_finite (power : ℚ) :
    ∀ (coefs : List ℚ) (a : List PyFloat),
      (∀ x ∈ a, x.isFinite = true) → coefs.length ≤ a.length →
      WalkerBase.torques power coefs a =
        .ok (List.zipWith (fun c x => power * c * clip1 x.val) coefs a)
  | [], _, _, _ => rfl
  | _ :: _, [], _, hlen => absurd hlen (by simp)
  | c :: cs, x :: xs, hfin, hlen => by
    have hx : x.isFinite = true := hfin x (by simp)
    match x, hx with
    | .finite q, _ =>
      have ih := WalkerBase.torques_of_finite power cs xs
        (fun y hy => hfin y (by simp [hy])) (by simpa using hlen)
      simp [WalkerBase.torques, ih, PyFloat.val, Except.map]

/-- C1: for an all-finite action vector (of at least joint-count length),
`WalkerBase.apply_action` succeeds and commands joint `n` the torque
`power * power_coef[n] * clip(a[n], -1, 1)`; the clip is the identity at the
boundaries ±1 and saturates beyond them; a vector with any non-finite entry
fails the finiteness assertion. -/
theorem C1_walker_apply_action_spec (power : ℚ) (power_coefs : List ℚ)
    (a : List PyFloat) (hlen : power_coefs.length ≤ a.length) :
    (a.all PyFloat.isFinite = true →
      WalkerBase.apply_action power power_coefs a =
        .ok (List.zipWith (fun c x => power * c * clip1 x.val) power_coefs a))
    ∧ (a.all PyFloat.isFinite = false →
      WalkerBase.apply_action power power_coefs a = .error "AssertionError")
    ∧ clip1 (-1) = -1 ∧ clip1 1 = 1
    ∧ (∀ q : ℚ, q ≤ -1 → clip1 q = -1) ∧ (∀ q : ℚ, 1 ≤ q → clip1 q = 1)
    ∧ (∀ q : ℚ, -1 ≤ q → q ≤ 1 → clip1 q = q) := by
  refine ⟨?_, ?_, by norm_num [clip1], by norm_num [clip1], ?_, ?_, ?_⟩
  · intro hf
    have h1 : ∀ x ∈ a, x.isFinite = true := by
      simpa [List.all_eq_true] using hf
    simp only [WalkerBase.apply_action, hf, if_true]
    exact WalkerBase.torques_of_finite power power_coefs a h1 hlen
  · intro hf
    simp [WalkerBase.apply_action, hf]
  · intro q h
    rw [clip1, max_eq_right h]
    exact min_eq_left (by norm_num)
  · intro q h
    rw [clip1, max_eq_left (le_trans (by norm_num) h)]
    exact min_eq_right h
  · intro q h1 h2
    rw [clip1, max_eq_left h1]
    exact min_eq_left h2

/-- C1 witness: a concrete three-joint robot with action entries at both
clamping boundaries and one interior value. -/
theorem C1_walker_apply_action_spec_witness :
    WalkerBase.apply_action 2 [3, 4, 5]
        [.finite (-1), .finite 1, .finite (1/2)] =
      .ok (List.zipWith (fun (c : ℚ) (x : PyFloat) => 2 * c * clip1 x.val)
        ([3, 4, 5] : List ℚ)
        ([.finite (-1), .finite 1, .finite (1/2)] : List PyFloat)) :=
  (C1_walker_apply_action_spec 2 [3, 4, 5]
    [.finite (-1), .finite 1, .finite (1/2)] (by simp)).1 (by decide)

/-- C4: `HumanoidFlagrunHarder.alive_bonus` increments the ground counter
while z < 0.8, decrements it (never below 0) otherwise, and returns
`potential_leak()` while the updated counter is below 170 and -1 from 170 on. -/
theorem C4_frh_alive_bonus_counter (z : ℚ) (c : ℤ) :
    (z < 4/5 → (HumanoidFlagrunHarder.alive_bonus z c).2 = c + 1)
    ∧ (¬ z < 4/5 → 0 < c → (HumanoidFlagrunHarder.alive_bonus z c).2 = c - 1)
    ∧ (¬ z < 4/5 → c ≤ 0 → (HumanoidFlagrunHarder.alive_bonus z c).2 = c)
    ∧ (0 ≤ c → 0 ≤ (HumanoidFlagrunHarder.alive_bonus z c).2)
    ∧ ((HumanoidFlagrunHarder.alive_bonus z c).2 < 170 →
        (HumanoidFlagrunHarder.alive_bonus z c).1 =
          HumanoidFlagrunHarder.potential_leak z)
    ∧ (170 ≤ (HumanoidFlagrunHarder.alive_bonus z c).2 →
        (HumanoidFlagrunHarder.alive_bonus z c).1 = -1) := by
  refine ⟨?_, ?_, ?_, ?_, ?_, ?_⟩
  · intro hz
    simp [HumanoidFlagrunHarder.alive_bonus, hz]
  · intro hz hc
    simp [HumanoidFlagrunHarder.alive_bonus, hz, hc]
  · intro hz hc
    simp [HumanoidFlagrunHarder.alive_bonus, hz, not_lt.mpr hc]
  · intro hc
    simp only [HumanoidFlagrunHarder.alive_bonus]
    split_ifs <;> omega
  · intro h
    simp only [HumanoidFlagrunHarder.alive_bonus] at h ⊢
    split_ifs at h ⊢ <;> first | rfl | omega
  · intro h
    simp only [HumanoidFlagrunHarder.alive_bonus] at h ⊢
    split_ifs at h ⊢ <;> first | rfl | omega

/-- C4 witness: a call at height 0 with counter 0 increments the counter. -/
theorem C4_frh_alive_bonus_counter_witness :
    (HumanoidFlagrunHarder.alive_bonus 0 0).2 = 0 + 1 :=
  (C4_frh_alive_bonus_counter 0 0).1 (by norm_num)

/-- C6: `potential_leak` is monotone non-decreasing on [0, 0.8], equals 1 at
height 0 (or below) and 2 at height 0.8 or above. -/
theorem C6_potential_leak_spec :
    (∀ a b : ℚ, 0 ≤ a → a ≤ b → b ≤ 4/5 →
      HumanoidFlagrunHarder.potential_leak a ≤
        HumanoidFlagrunHarder.potential_leak b)
    ∧ (∀ z : ℚ, z ≤ 0 → HumanoidFlagrunHarder.potential_leak z = 1)
    ∧ (∀ z : ℚ, 4/5 ≤ z → HumanoidFlagrunHarder.potential_leak z = 2) := by
  refine ⟨?_, ?_, ?_⟩
  · intro a b ha hab hb
    simp only [HumanoidFlagrunHarder.potential_leak, min_def, max_def]
    split_ifs <;> linarith
  · intro z hz
    rw [HumanoidFlagrunHarder.potential_leak, max_eq_right hz,
      min_eq_left (by norm_num)]
    norm_num
  · intro z hz
    rw [HumanoidFlagrunHarder.potential_leak,
      max_eq_left (le_trans (by norm_num) hz), min_eq_right hz]
    norm_num

/-- C6 witness: the leak at height 0 is exactly 1. -/
theorem C6_potential_leak_spec_witness :
    HumanoidFlagrunHarder.potential_leak 0 = 1 :=
  C6_potential_leak_spec.2.1 0 le_rfl

/-- C7: `HalfCheetah.alive_bonus` is -1 exactly when `|pitch| ≥ 1` or one of
the tracked non-foot contacts (indices 1, 2, 4, 5) is nonzero, is +1
otherwise, and ignores its height argument. -/
theorem C7_halfcheetah_alive_bonus (z z' pitch : ℚ) (fc : List ℚ) :
    (HalfCheetah.alive_bonus z pitch fc = -1 ↔
      1 ≤ |pitch| ∨ fc.getD 1 0 ≠ 0 ∨ fc.getD 2 0 ≠ 0 ∨
        fc.getD 4 0 ≠ 0 ∨ fc.getD 5 0 ≠ 0)
    ∧ (HalfCheetah.alive_bonus z pitch fc = -1 ∨
        HalfCheetah.alive_bonus z pitch fc = 1)
    ∧ HalfCheetah.alive_bonus z pitch fc = HalfCheetah.alive_bonus z' pitch fc := by
  refine ⟨?_, ?_, rfl⟩
  · rcases em (|pitch| < 1 ∧ fc.getD 1 0 = 0 ∧ fc.getD 2 0 = 0 ∧
      fc.getD 4 0 = 0 ∧ fc.getD 5 0 = 0) with h | h
    · rw [HalfCheetah.alive_bonus, if_pos h]
      obtain ⟨hp, h1, h2, h4, h5⟩ := h
      constructor
      · intro hbad
        exact absurd hbad (by norm_num)
      · rintro (hx | hx | hx | hx | hx)
        · exact absurd hp (not_lt.mpr hx)
        · exact absurd h1 hx
        · exact absurd h2 hx
        · exact absurd h4 hx
        · exact absurd h5 hx
    · rw [HalfCheetah.alive_bonus, if_neg h]
      constructor
      · intro _
        by_contra hcon
        push_neg at hcon
        exact h hcon
      · intro _
        rfl
  · rw [HalfCheetah.alive_bonus]
    split_ifs <;> simp

/-- C10: `HumanoidFlagrunHarder.__init__` invokes the parent initializer with
an empty argument list, so construction always raises a TypeError and no
instance is ever produced. -/
theorem C10_flagrun_harder_init_raises (self : RobotInitFields) :
    humanoid_flagrun_harder_init self = Except.error "TypeError: missing self"
    ∧ ∀ r : RobotInitFields, humanoid_flagrun_harder_init self ≠ Except.ok r := by
  refine ⟨rfl, ?_⟩
  intro r h
  exact Except.noConfusion h

theorem interleave_length : ∀ l : List (ℚ × ℚ), (interleave l).length = 2 * l.length
  | [] => rfl
  | _ :: rest => by
    simp [interleave, interleave_length rest]
    omega

/-- C3: the observation built by `WalkerBase.calc_state` has length
8 + 2·(joint count) + (foot count), every entry lies in [-5, 5], and for each
robot variant whose joint and foot counts match its morphology the length
equals the declared `obs_dim`. -/
theorem C3_calc_state_dims_and_clip (ops : Ops) (tx ty : ℚ) (iz0 : Option ℚ)
    (inp : SensorInput) :
    ((WalkerBase.calc_state ops tx ty iz0 inp).obs.length
      = 8 + 2 * inp.joints.length + inp.feet_contact.length)
    ∧ (∀ q ∈ (WalkerBase.calc_state ops tx ty iz0 inp).obs, -5 ≤ q ∧ q ≤ 5)
    ∧ (∀ v : Variant, inp.joints.length = action_dim v →
        inp.feet_contact.length = foot_count v →
        (WalkerBase.calc_state ops tx ty iz0 inp).obs.length = obs_dim v) := by
  have hlen : (WalkerBase.calc_state ops tx ty iz0 inp).obs.length
      = 8 + 2 * inp.joints.length + inp.feet_contact.length := by
    simp [WalkerBase.calc_state, interleave_length]
    omega
  refine ⟨hlen, ?_, ?_⟩
  · intro q hq
    simp only [WalkerBase.calc_state, List.mem_map] at hq
    obtain ⟨x, _, rfl⟩ := hq
    unfold clip5
    exact ⟨le_min (le_max_right _ _) (by norm_num), min_le_right _ _⟩
  · intro v hj hf
    rw [hlen, hj, hf]
    cases v <;> rfl

/-- C3 witness: a Hopper-shaped input (3 joints, 1 foot) yields a state of
the declared length 15. -/
theorem C3_calc_state_dims_and_clip_witness :
    (WalkerBase.calc_state zeroOps 0 0 none hopperInput).obs.length =
      obs_dim Variant.hopper :=
  (C3_calc_state_dims_and_clip zeroOps 0 0 none hopperInput).2.2
    Variant.hopper (by rfl) (by rfl)

theorem HumanoidFlagrunHarder.crawl_run_frozen (s0 : ℚ) :
    ∀ (steps : List (ℚ × ℚ)) (ign : ℚ),
      (∀ q ∈ steps, q.1 < 4/5) →
      (HumanoidFlagrunHarder.crawl_run ⟨some s0, ign⟩ steps).1
          = List.replicate steps.length s0
      ∧ (HumanoidFlagrunHarder.crawl_run ⟨some s0, ign⟩ steps).2.crawl_start_potential
          = some s0
  | [], _, _ => ⟨rfl, rfl⟩
  | (z, p) :: rest, ign, h => by
    have hz : z < 4/5 := h (z, p) (by simp)
    have ih := HumanoidFlagrunHarder.crawl_run_frozen s0 rest (p - s0)
      (fun q hq => h q (by simp [hq]))
    simp [HumanoidFlagrunHarder.crawl_run, HumanoidFlagrunHarder.crawl_update,
      hz, ih.1, ih.2, List.replicate]

/-- C2: the crawl-suppression bookkeeping of
`HumanoidFlagrunHarder.calc_potential`.  While the height is below 0.8 the
flag-running progress component is frozen at `crawl_start_potential` (set at
the moment of falling to the then-current progress minus the already-ignored
progress), and the progress made while down accumulates in
`crawl_ignored_potential`; across a whole window of below-0.8 calls the
frozen component is constant; when the height is 0.8 or more the accumulated
ignored progress is subtracted from the progress component and
`crawl_start_potential` resets to `none`. -/
theorem C2_frh_crawl_suppression :
    (∀ z dist dt ign s0 : ℚ, z < 4/5 →
      HumanoidFlagrunHarder.calc_potential z dist dt ⟨some s0, ign⟩ =
        (s0 + HumanoidFlagrunHarder.potential_leak z * 100,
          ⟨some s0, WalkerBase.calc_potential dist dt - s0⟩))
    ∧ (∀ z dist dt ign : ℚ, z < 4/5 →
      HumanoidFlagrunHarder.calc_potential z dist dt ⟨none, ign⟩ =
        (WalkerBase.calc_potential dist dt - ign
            + HumanoidFlagrunHarder.potential_leak z * 100,
          ⟨some (WalkerBase.calc_potential dist dt - ign), ign⟩))
    ∧ (∀ (z dist dt ign : ℚ) (st : Option ℚ), ¬ z < 4/5 →
      HumanoidFlagrunHarder.calc_potential z dist dt ⟨st, ign⟩ =
        (WalkerBase.calc_potential dist dt - ign
            + HumanoidFlagrunHarder.potential_leak z * 100,
          ⟨none, ign⟩))
    ∧ (∀ (s0 ign : ℚ) (steps : List (ℚ × ℚ)),
        (∀ q ∈ steps, q.1 < 4/5) →
        (HumanoidFlagrunHarder.crawl_run ⟨some s0, ign⟩ steps).1
            = List.replicate steps.length s0
        ∧ (HumanoidFlagrunHarder.crawl_run ⟨some s0, ign⟩
            steps).2.crawl_start_potential = some s0) := by
  refine ⟨?_, ?_, ?_, ?_⟩
  · intro z dist dt ign s0 hz
    simp [HumanoidFlagrunHarder.calc_potential,
      HumanoidFlagrunHarder.crawl_update, hz]
  · intro z dist dt ign hz
    simp only [HumanoidFlagrunHarder.calc_potential,
      HumanoidFlagrunHarder.crawl_update, if_pos hz, Option.getD_none]
    rw [show WalkerBase.calc_potential dist dt -
        (WalkerBase.calc_potential dist dt - ign) = ign from by ring]
  · intro z dist dt ign st hz
    simp [HumanoidFlagrunHarder.calc_potential,
      HumanoidFlagrunHarder.crawl_update, hz]
  · intro s0 ign steps h
    exact HumanoidFlagrunHarder.crawl_run_frozen s0 steps ign h

/-- C2 witness: a recovery call (height 1 ≥ 0.8) subtracts the ignored
progress and clears the crawl start marker. -/
theorem C2_frh_crawl_suppression_witness :
    HumanoidFlagrunHarder.calc_potential 1 0 1 ⟨none, 0⟩ =
      (WalkerBase.calc_potential 0 1 - 0
          + HumanoidFlagrunHarder.potential_leak 1 * 100,
        ⟨none, 0⟩) :=
  C2_frh_crawl_suppression.2.2.1 1 0 1 0 none (by norm_num)

/-- C5: when the walk-target distance computed by this call's state
computation is below 1, or the decremented timeout has reached 0 or less,
`HumanoidFlagrun.calc_state` repositions the flag inside
[-halflen/2, halflen/2] × [-halfwidth/2, halfwidth/2] (given the uniform
sampler's contract `|rx| ≤ halflen`, `|ry| ≤ halfwidth`), resets the timeout
to 200, returns the state recomputed against the new target, and recomputes
the stored potential from the new target's distance. -/
theorem C5_flagrun_reposition (ops : Ops) (scene : HumanoidFlagrun.Scene)
    (rx ry : ℚ) (inp : SensorInput) (s : HumanoidFlagrun.FlagrunState)
    (hrx : |rx| ≤ scene.stadium_halflen)
    (hry : |ry| ≤ scene.stadium_halfwidth)
    (hcond :
      (WalkerBase.calc_state ops s.walk_target_x s.walk_target_y s.initial_z
        inp).walk_target_dist < 1 ∨ s.flag_timeout - 1 ≤ 0) :
    -(scene.stadium_halflen * (1/2)) ≤
        (HumanoidFlagrun.calc_state ops scene rx ry inp s).2.walk_target_x
    ∧ (HumanoidFlagrun.calc_state ops scene rx ry inp s).2.walk_target_x ≤
        scene.stadium_halflen * (1/2)
    ∧ -(scene.stadium_halfwidth * (1/2)) ≤
        (HumanoidFlagrun.calc_state ops scene rx ry inp s).2.walk_target_y
    ∧ (HumanoidFlagrun.calc_state ops scene rx ry inp s).2.walk_target_y ≤
        scene.stadium_halfwidth * (1/2)
    ∧ (HumanoidFlagrun.calc_state ops scene rx ry inp s).2.flag_timeout = 200
    ∧ (HumanoidFlagrun.calc_state ops scene rx ry inp s).1 =
        (WalkerBase.calc_state ops (rx * (1/2)) (ry * (1/2))
          (some (WalkerBase.calc_state ops s.walk_target_x s.walk_target_y
            s.initial_z inp).initial_z) inp).obs
    ∧ (HumanoidFlagrun.calc_state ops scene rx ry inp s).2.walk_target_dist =
        (WalkerBase.calc_state ops (rx * (1/2)) (ry * (1/2))
          (some (WalkerBase.calc_state ops s.walk_target_x s.walk_target_y
            s.initial_z inp).initial_z) inp).walk_target_dist
    ∧ (HumanoidFlagrun.calc_state ops scene rx ry inp s).2.potential =
        WalkerBase.calc_potential
          ((WalkerBase.calc_state ops (rx * (1/2)) (ry * (1/2))
            (some (WalkerBase.calc_state ops s.walk_target_x s.walk_target_y
              s.initial_z inp).initial_z) inp).walk_target_dist) scene.dt := by
  have hstep : HumanoidFlagrun.calc_state ops scene rx ry inp s =
      ((WalkerBase.calc_state ops (rx * (1/2)) (ry * (1/2))
          (some (WalkerBase.calc_state ops s.walk_target_x s.walk_target_y
            s.initial_z inp).initial_z) inp).obs,
        { walk_target_x := rx * (1/2)
          walk_target_y := ry * (1/2)
          flag_timeout := 200
          walk_target_dist := (WalkerBase.calc_state ops (rx * (1/2))
            (ry * (1/2)) (some (WalkerBase.calc_state ops s.walk_target_x
              s.walk_target_y s.initial_z inp).initial_z)
            inp).walk_target_dist
          potential := WalkerBase.calc_potential
            ((WalkerBase.calc_state ops (rx * (1/2)) (ry * (1/2))
              (some (WalkerBase.calc_state ops s.walk_target_x
                s.walk_target_y s.initial_z inp).initial_z)
              inp).walk_target_dist) scene.dt
          initial_z := some (WalkerBase.calc_state ops (rx * (1/2))
            (ry * (1/2)) (some (WalkerBase.calc_state ops s.walk_target_x
              s.walk_target_y s.initial_z inp).initial_z)
            inp).initial_z }) := by
    simp only [HumanoidFlagrun.calc_state, HumanoidFlagrun.flag_reposition]
    rw [if_pos hcond]
  obtain ⟨h1, h2⟩ := abs_le.mp hrx
  obtain ⟨h3, h4⟩ := abs_le.mp hry
  rw [hstep]
  refine ⟨?_, ?_, ?_, ?_, rfl, rfl, rfl, rfl⟩
  · show -(scene.stadium_halflen * (1/2)) ≤ rx * (1/2)
    linarith
  · show rx * (1/2) ≤ scene.stadium_halflen * (1/2)
    linarith
  · show -(scene.stadium_halfwidth * (1/2)) ≤ ry * (1/2)
    linarith
  · show ry * (1/2) ≤ scene.stadium_halfwidth * (1/2)
    linarith

/-- C5 witness: with the timeout expiring this tick, a concrete Flagrun state
gets its timeout reset to 200. -/
theorem C5_flagrun_reposition_witness :
    (HumanoidFlagrun.calc_state zeroOps ⟨1, 2, 3⟩ 2 (-3) sampleInput
      ⟨10, 10, 1, 5, 0, none⟩).2.flag_timeout = 200 :=
  (C5_flagrun_reposition zeroOps ⟨1, 2, 3⟩ 2 (-3) sampleInput
    ⟨10, 10, 1, 5, 0, none⟩ (by norm_num) (by norm_num)
    (Or.inr (by norm_num))).2.2.2.2.1

/-- C8 counterexample: `Atlas.alive_bonus` is called with height argument
z = 2 (above 1.3) while the head sits at z = 1 and both knees are far from
their limits; the claim predicts +4 - 0, the code returns -1 because the
argument z is shadowed by the head height. -/
theorem C8_atlas_alive_bonus_counterexample :
    Atlas.alive_bonus 2 0 1 [(0, 0), (0, 0)] = -1
    ∧ (13/10 : ℚ) < 2
    ∧ ((([(0, 0), (0, 0)] : List (ℚ × ℚ)).filter
        (fun q => 99/100 < |q.1|)).length : ℚ) = 0
    ∧ (-1 : ℚ) ≠ 4 - 0 := by
  refine ⟨by norm_num [Atlas.alive_bonus], by norm_num, ?_, by norm_num⟩
  norm_num [List.filter]

/-- C8 amended: the bonus is +4 minus the number of knees past 0.99 of their
limit when the HEAD's z-position exceeds 1.3, and -1 otherwise; the height
argument z passed to the method has no influence. -/
theorem C8_atlas_alive_bonus_amended (z z' pitch head_z : ℚ)
    (knees : List (ℚ × ℚ)) :
    Atlas.alive_bonus z pitch head_z knees =
      (if 13/10 < head_z
        then 4 - ((knees.filter (fun q => 99/100 < |q.1|)).length : ℚ)
        else -1)
    ∧ Atlas.alive_bonus z pitch head_z knees =
        Atlas.alive_bonus z' pitch head_z knees :=
  ⟨rfl, rfl⟩

/-- C9 counterexample: Humanoid's reset chain does NOT leave `initial_z`
unset — it ends with `self.initial_z = 0.8` — so the height-delta entry of
the first observation after a reset is z - 0.8 (here 1.4 - 0.8 = 0.6), not
zero. -/
theorem C9_reset_initial_z_counterexample :
    reset_initial_z Variant.humanoid = some (4/5)
    ∧ reset_initial_z Variant.humanoid ≠ none
    ∧ (WalkerBase.calc_state zeroOps 0 0 (reset_initial_z Variant.humanoid)
        sampleInput).obs.getD 0 0 = 3/5
    ∧ (3/5 : ℚ) ≠ 0 := by
  refine ⟨rfl, by simp [reset_initial_z], ?_, by norm_num⟩
  have h : (WalkerBase.calc_state zeroOps 0 0 (reset_initial_z Variant.humanoid)
      sampleInput).obs.getD 0 0 = clip5 (7/5 - 4/5) := by
    simp [WalkerBase.calc_state, sampleInput, reset_initial_z, interleave,
      List.getD]
  rw [h, show (7/5 : ℚ) - 4/5 = 3/5 from by norm_num, clip5,
    max_eq_left (by norm_num), min_eq_left (by norm_num)]

/-- C9 amended: the variants that keep `WalkerBase`'s reset behaviour
(Hopper, Walker2D, HalfCheetah, Ant) leave `initial_z` unset, and a first
`calc_state` with `initial_z` unset is well-defined: it latches `initial_z`
to the current height, making the height-delta entry zero.  Humanoid's reset
chain instead ends by setting `initial_z = 0.8`, and Atlas's sets 1.5. -/
theorem C9_reset_initial_z_amended :
    reset_initial_z .hopper = none ∧ reset_initial_z .walker2d = none
    ∧ reset_initial_z .halfCheetah = none ∧ reset_initial_z .ant = none
    ∧ reset_initial_z .humanoid = some (4/5)
    ∧ reset_initial_z .atlas = some (3/2)
    ∧ ∀ (ops : Ops) (tx ty : ℚ) (inp : SensorInput),
        (WalkerBase.calc_state ops tx ty none inp).initial_z = inp.body_z
        ∧ (WalkerBase.calc_state ops tx ty none inp).obs.getD 0 0 = 0 := by
  refine ⟨rfl, rfl, rfl, rfl, rfl, rfl, ?_⟩
  intro ops tx ty inp
  refine ⟨rfl, ?_⟩
  simp [WalkerBase.calc_state, clip5, List.getD]

/-- C7 witness: concrete evaluation — with zero pitch and clean contacts the
bonus is one of the two documented values. -/
theorem C7_halfcheetah_alive_bonus_witness :
    HalfCheetah.alive_bonus 0 0 [0, 0, 0, 0, 0, 0] = -1 ∨
      HalfCheetah.alive_bonus 0 0 [0, 0, 0, 0, 0, 0] = 1 :=
  (C7_halfcheetah_alive_bonus 0 1 0 [0, 0, 0, 0, 0, 0]).2.1

/-- C10 witness: a concrete construction attempt yields the TypeError. -/
theorem C10_flagrun_harder_init_raises_witness :
    humanoid_flagrun_harder_init (walker_base_init 0) =
      Except.error "TypeError: missing self" :=
  (C10_flagrun_harder_init_raises (walker_base_init 0)).1
